import Mathlib

/-!
Shallow embedding of `src/opm/output/eclipse/EclipseReader.cpp` (restart-file
reading for OPM output): `restoreSOLUTION`, `restoreOPM_XWEL` and
`init_from_restart_file`, together with theorems about their extraction,
validation, slicing and unit-normalization behavior.

Records hold rationals (the C++ code reads float/double data; the claims are
about which elements land where and which conversions are applied, not about
floating-point rounding). Thrown `std::runtime_error`s become `Outcome.err`;
out-of-bounds reads and `ecl` library calls on absent keywords (which the C++
code does not guard) become `Outcome.ub` (undefined behavior).
-/

namespace OpmOutput

/-- The two physical dimensions exercised by the reader. -/
inductive Dim where
  | pressure
  | temperature
deriving DecidableEq

/-- Modelled from the spec: `conversions::to_si` (ConversionFactors.hpp) is not in
the source tree; the spec describes the UnitConverter as a pure function applying a
per-dimension conversion factor from the selected table, round-tripping "using the
inverse factor", i.e. multiplication by the table's factor for that dimension. -/
def to_si (conversion_table : Dim → ℚ) (d : Dim) (x : ℚ) : ℚ :=
  conversion_table d * x

/-- A record store (`ecl_file_type`): named records, each an ordered sequence of
numeric values. Occurrence order in the list is file order. -/
structure Store where
  records : List (String × List ℚ)
deriving DecidableEq

/-- `ecl_file_has_kw`. -/
def Store.has (s : Store) (name : String) : Bool :=
  s.records.any (fun r => r.1 == name)

/-- `ecl_file_iget_named_kw(file, name, 0)` and reading its size/data: the first
record with the given name, if any. -/
def Store.getNamed (s : Store) (name : String) : Option (List ℚ) :=
  (s.records.find? (fun r => r.1 == name)).map Prod.snd

/-- Data of a record; used only after a presence check has established it exists. -/
def Store.getNamedD (s : Store) (name : String) : List ℚ :=
  (s.getNamed name).getD []

/-- The `std::runtime_error`s thrown by EclipseReader.cpp: one constructor per
throw site, carrying exactly the data the source interpolates into the message. -/
inductive RestartError where
  | missingKeyword (name : String)
  | sizeMismatch (name : String)
  | fileNotFound (filename : String)
  | reportStepNotFound (filename : String) (step : Int)
deriving DecidableEq

/-- The exact message string carried by the thrown `std::runtime_error`. -/
def RestartError.message : RestartError → String
  | .missingKeyword name =>
      "Read of restart file: File does not contain " ++ name ++ " data"
  | .sizeMismatch name =>
      "Restart file: Could not restore " ++ name ++ ", mismatched number of cells"
  | .fileNotFound filename =>
      "Restart file " ++ filename ++ " not found!"
  | .reportStepNotFound filename step =>
      "Restart file " ++ filename ++ " does not contain data for report step "
        ++ toString step ++ "!"

/-- Result of running a piece of the reader: a returned value, a thrown error, or
undefined behavior (an out-of-bounds read, or an `ecl` call on an absent keyword). -/
inductive Outcome (α : Type) where
  | ok (value : α)
  | err (e : RestartError)
  | ub
deriving DecidableEq

/-- `data::Solution` as produced by `restoreSOLUTION`: the four mandatory per-cell
fields are always inserted; RS and RV only when their records exist in the file. -/
structure Solution where
  pressure : List ℚ
  temp : List ℚ
  swat : List ℚ
  sgas : List ℚ
  rs : Option (List ℚ)
  rv : Option (List ℚ)
deriving DecidableEq

/-- `data::Wells` as produced by `restoreOPM_XWEL`. -/
structure Wells where
  bhp : List ℚ
  perf_pressure : List ℚ
  perf_rate : List ℚ
  temperature : List ℚ
  well_rate : List ℚ
deriving DecidableEq

/-- The four mandatory keywords checked by `restoreSOLUTION`, in source order
(line 42). -/
def mandatoryKeys : List String := ["PRESSURE", "TEMP", "SWAT", "SGAS"]

/-- The presence-check loop (lines 42-48): the first mandatory keyword absent from
the store, if any. -/
def firstMissingKey (file : Store) : Option String :=
  mandatoryKeys.find? (fun key => !(file.has key))

/-- The size-check loop (lines 69-74): the first mandatory keyword whose record
size differs from `numcells`, if any. -/
def firstSizeMismatch (file : Store) (numcells : Nat) : Option String :=
  mandatoryKeys.find? (fun key => (file.getNamedD key).length != numcells)

/-- `restoreSOLUTION` (lines 38-109): presence check of the four mandatory
keywords, size check against `numcells`, assembly of the four mandatory fields,
in-place unit conversion of PRESSURE and TEMP (SWAT and SGAS are copied raw), and
raw copy of the optional RS/RV records when present (no conversion, no size check). -/
def restoreSOLUTION (file : Store) (numcells : Nat)
    (conversion_table : Dim → ℚ) : Outcome Solution :=
  match firstMissingKey file with
  | some key => .err (.missingKeyword key)
  | none =>
    match firstSizeMismatch file numcells with
    | some name => .err (.sizeMismatch name)
    | none =>
      .ok ⟨(file.getNamedD "PRESSURE").map (to_si conversion_table .pressure),
           (file.getNamedD "TEMP").map (to_si conversion_table .temperature),
           file.getNamedD "SWAT",
           file.getNamedD "SGAS",
           file.getNamed "RS",
           file.getNamed "RV"⟩

/-- `std::vector<double>{first, last}` over a record's buffer: the elements at
offsets [first, last); defined only when the whole window is inside the buffer
(otherwise the C++ copy reads out of bounds). -/
def sliceRange (xs : List ℚ) (first last : Int) : Option (List ℚ) :=
  if 0 ≤ first ∧ first ≤ last ∧ last ≤ (xs.length : Int) then
    some ((xs.drop first.toNat).take (last - first).toNat)
  else none

/-- `restoreOPM_XWEL` (lines 111-142): fetch the OPM_XWEL record (no presence
check: a missing keyword is an `ecl` precondition violation, i.e. UB, not a thrown
error) and slice it into five windows by pointer arithmetic; `remaining` is the
signed distance from the end of the well-rate window to the end of the record and
`perf_elems` its quotient by 2 with C++ signed division (truncation toward zero);
a window extending past the record is an out-of-bounds read, i.e. UB. -/
def restoreOPM_XWEL (file : Store) (num_wells num_phases : Nat) : Outcome Wells :=
  match file.getNamed "OPM_XWEL" with
  | none => .ub
  | some xwel =>
    let len : Int := xwel.length
    let bhp_begin : Int := 0
    let bhp_end : Int := bhp_begin + num_wells
    let temp_begin := bhp_end
    let temp_end := temp_begin + num_wells
    let wellrate_begin := temp_end
    let wellrate_end := wellrate_begin + ((num_wells * num_phases : Nat) : Int)
    let remaining := len - wellrate_end
    let perf_elems := Int.tdiv remaining 2
    let perfpres_begin := wellrate_end
    let perfpres_end := perfpres_begin + perf_elems
    let perfrate_begin := perfpres_end
    let perfrate_end := perfrate_begin + perf_elems
    match sliceRange xwel bhp_begin bhp_end,
          sliceRange xwel perfpres_begin perfpres_end,
          sliceRange xwel perfrate_begin perfrate_end,
          sliceRange xwel temp_begin temp_end,
          sliceRange xwel wellrate_begin wellrate_end with
    | some bhp, some perfpres, some perfrate, some temp, some wellrate =>
        .ok ⟨bhp, perfpres, perfrate, temp, wellrate⟩
    | _, _, _, _, _ => .ub

/-- `UnitSystem::UnitType`: the closed unit-system enumeration of the parser. -/
inductive UnitSystemType where
  | metric
  | field
  | lab
deriving DecidableEq

/-- The conversion-table selection of lines 174-177: a two-way branch on whether
the deck unit system is METRIC. -/
def selectConvTable (metric2si field2si : Dim → ℚ)
    (unit_type : UnitSystemType) : Dim → ℚ :=
  if unit_type = UnitSystemType.metric then metric2si else field2si

/-- `init_from_restart_file` (lines 145-183). Collaborator-supplied values (the
resolved filename, the opened store or `none` when opening failed, the unified
flag, the result of `ecl_file_select_rstblock_report_step`, the report step, the
two conversion tables, the deck unit-system type and the geometry/schedule counts)
are parameters; the braced-init-list of lines 179-182 evaluates `restoreSOLUTION`
before `restoreOPM_XWEL`. -/
def init_from_restart_file (filename : String) (file : Option Store)
    (unified selectOk : Bool) (restart_step : Int)
    (metric2si field2si : Dim → ℚ) (unit_type : UnitSystemType)
    (numcells num_wells num_phases : Nat) : Outcome (Solution × Wells) :=
  match file with
  | none => .err (.fileNotFound filename)
  | some f =>
    if unified && !selectOk then
      .err (.reportStepNotFound filename restart_step)
    else
      match restoreSOLUTION f numcells
              (selectConvTable metric2si field2si unit_type) with
      | .err e => .err e
      | .ub => .ub
      | .ok sol =>
        match restoreOPM_XWEL f num_wells num_phases with
        | .err e => .err e
        | .ub => .ub
        | .ok wells => .ok (sol, wells)

/-! ## Helper lemmas -/

/-- A store without a record of the given name yields nothing for it. -/
theorem Store.getNamed_eq_none_of_not_has (s : Store) (name : String)
    (h : s.has name = false) : s.getNamed name = none := by
  simp only [Store.has, List.any_eq_false] at h
  simp only [Store.getNamed, Option.map_eq_none']
  rw [List.find?_eq_none]
  intro x hx
  simpa using h x hx

/-- A window given by a base offset and a length, entirely inside the buffer,
slices to the corresponding drop/take. -/
theorem sliceRange_of_eq (xs : List ℚ) (first last : Int) (b n : Nat)
    (hb : first = (b : Int)) (he : last = (b : Int) + (n : Int))
    (h : b + n ≤ xs.length) :
    sliceRange xs first last = some ((xs.drop b).take n) := by
  subst hb; subst he
  unfold sliceRange
  rw [if_pos]
  · have h1 : ((b : Int)).toNat = b := Int.toNat_ofNat b
    have h2 : ((b : Int) + (n : Int) - (b : Int)).toNat = n := by omega
    rw [h2, h1]
  · refine ⟨by omega, by omega, by omega⟩

/-! ## Claim theorems -/

/-- C10: the well-field extraction never checks that OPM_XWEL is present: on a
store lacking OPM_XWEL it hits undefined behavior (an unguarded `ecl` fetch of an
absent keyword) and in particular does not throw any error of the taxonomy, so
the absence is never reported as a MissingKeywordError. -/
theorem restoreOPM_XWEL_no_presence_check (file : Store)
    (num_wells num_phases : Nat) (h : file.has "OPM_XWEL" = false) :
    restoreOPM_XWEL file num_wells num_phases = Outcome.ub ∧
    ∀ e : RestartError,
      restoreOPM_XWEL file num_wells num_phases ≠ Outcome.err e := by
  have hub : restoreOPM_XWEL file num_wells num_phases = Outcome.ub := by
    unfold restoreOPM_XWEL
    rw [Store.getNamed_eq_none_of_not_has file _ h]
  refine ⟨hub, ?_⟩
  intro e he
  rw [hub] at he
  exact Outcome.noConfusion he

/-- C10 witness: a concrete empty store. -/
theorem restoreOPM_XWEL_no_presence_check_witness :
    (Store.mk []).has "OPM_XWEL" = false ∧
    (restoreOPM_XWEL (Store.mk []) 1 1 = Outcome.ub ∧
     ∀ e : RestartError,
       restoreOPM_XWEL (Store.mk []) 1 1 ≠ Outcome.err e) :=
  ⟨rfl, restoreOPM_XWEL_no_presence_check (Store.mk []) 1 1 rfl⟩

/-- A store whose OPM_XWEL record has a single element: with one well and one
phase the layout needs 2*1 + 1*1 = 3 elements, so the record is too short. -/
def xwelShortStore : Store := ⟨[("OPM_XWEL", [(0 : ℚ)])]⟩

/-- C1: the code at a too-short well-state record (1 element where the layout
needs 3): the unguarded slicing reads out of bounds (undefined behavior); no
SizeMismatchError — nor any other error of the taxonomy — is thrown. -/
theorem restoreOPM_XWEL_short_record_ub :
    restoreOPM_XWEL xwelShortStore 1 1 = Outcome.ub ∧
    ∀ e : RestartError,
      restoreOPM_XWEL xwelShortStore 1 1 ≠ Outcome.err e := by
  have hub : restoreOPM_XWEL xwelShortStore 1 1 = Outcome.ub := by rfl
  refine ⟨hub, ?_⟩
  intro e he
  rw [hub] at he
  exact Outcome.noConfusion he

/-- C2: for a well-state record with at least `2*W + W*P` elements, extraction
succeeds and returns bottom-hole pressure = the first W elements, temperature =
the next W, surface rate = the next W*P, then splits the remaining R elements by
integer division: perforation pressure = the next floor(R/2) elements and
perforation rate = the following floor(R/2); when R is odd the last element is in
no window, i.e. it is dropped. -/
theorem restoreOPM_XWEL_layout (file : Store) (xwel : List ℚ)
    (num_wells num_phases : Nat)
    (hget : file.getNamed "OPM_XWEL" = some xwel)
    (hlen : 2 * num_wells + num_wells * num_phases ≤ xwel.length) :
    restoreOPM_XWEL file num_wells num_phases = Outcome.ok
      ⟨xwel.take num_wells,
       (xwel.drop (2 * num_wells + num_wells * num_phases)).take
         ((xwel.length - (2 * num_wells + num_wells * num_phases)) / 2),
       (xwel.drop (2 * num_wells + num_wells * num_phases +
           (xwel.length - (2 * num_wells + num_wells * num_phases)) / 2)).take
         ((xwel.length - (2 * num_wells + num_wells * num_phases)) / 2),
       (xwel.drop num_wells).take num_wells,
       (xwel.drop (2 * num_wells)).take (num_wells * num_phases)⟩ := by
  have htdiv : ((xwel.length : Int) -
      (0 + (num_wells : Int) + (num_wells : Int) +
        ((num_wells * num_phases : Nat) : Int))).tdiv 2 =
      (((xwel.length - (2 * num_wells + num_wells * num_phases)) / 2 : Nat) : Int) := by
    rw [Int.tdiv_eq_ediv (by push_cast; omega) (by norm_num)]
    omega
  simp only [restoreOPM_XWEL, hget]
  rw [htdiv]
  rw [sliceRange_of_eq xwel 0 (0 + (num_wells : Int)) 0 num_wells
        (by norm_num) (by push_cast; ring) (by omega)]
  rw [sliceRange_of_eq xwel (0 + (num_wells : Int))
        (0 + (num_wells : Int) + (num_wells : Int))
        num_wells num_wells (by ring) (by ring) (by omega)]
  rw [sliceRange_of_eq xwel (0 + (num_wells : Int) + (num_wells : Int))
        (0 + (num_wells : Int) + (num_wells : Int) +
          ((num_wells * num_phases : Nat) : Int))
        (2 * num_wells) (num_wells * num_phases)
        (by push_cast; ring) (by push_cast; ring) (by omega)]
  rw [sliceRange_of_eq xwel
        (0 + (num_wells : Int) + (num_wells : Int) +
          ((num_wells * num_phases : Nat) : Int))
        (0 + (num_wells : Int) + (num_wells : Int) +
          ((num_wells * num_phases : Nat) : Int) +
          (((xwel.length - (2 * num_wells + num_wells * num_phases)) / 2 : Nat) : Int))
        (2 * num_wells + num_wells * num_phases)
        ((xwel.length - (2 * num_wells + num_wells * num_phases)) / 2)
        (by push_cast; ring) (by push_cast; ring) (by omega)]
  rw [sliceRange_of_eq xwel
        (0 + (num_wells : Int) + (num_wells : Int) +
          ((num_wells * num_phases : Nat) : Int) +
          (((xwel.length - (2 * num_wells + num_wells * num_phases)) / 2 : Nat) : Int))
        (0 + (num_wells : Int) + (num_wells : Int) +
          ((num_wells * num_phases : Nat) : Int) +
          (((xwel.length - (2 * num_wells + num_wells * num_phases)) / 2 : Nat) : Int) +
          (((xwel.length - (2 * num_wells + num_wells * num_phases)) / 2 : Nat) : Int))
        (2 * num_wells + num_wells * num_phases +
          (xwel.length - (2 * num_wells + num_wells * num_phases)) / 2)
        ((xwel.length - (2 * num_wells + num_wells * num_phases)) / 2)
        (by push_cast; ring) (by push_cast; ring) (by omega)]
  simp

/-- The spec's end-to-end well example: a 14-element record with 2 wells and 3
phases. -/
def xwel14 : List ℚ := [0, 1, 2, 3, 4, 5, 6, 7, 8, 9, 10, 11, 12, 13]

/-- A store holding `xwel14` as its OPM_XWEL record. -/
def xwelStore14 : Store := ⟨[("OPM_XWEL", xwel14)]⟩

/-- C2 witness: the spec's example (record length 14, 2 wells, 3 phases). -/
theorem restoreOPM_XWEL_layout_witness :
    xwelStore14.getNamed "OPM_XWEL" = some xwel14 ∧
    2 * 2 + 2 * 3 ≤ xwel14.length ∧
    restoreOPM_XWEL xwelStore14 2 3 = Outcome.ok
      ⟨xwel14.take 2,
       (xwel14.drop (2 * 2 + 2 * 3)).take ((xwel14.length - (2 * 2 + 2 * 3)) / 2),
       (xwel14.drop (2 * 2 + 2 * 3 + (xwel14.length - (2 * 2 + 2 * 3)) / 2)).take
         ((xwel14.length - (2 * 2 + 2 * 3)) / 2),
       (xwel14.drop 2).take 2,
       (xwel14.drop (2 * 2)).take (2 * 3)⟩ :=
  ⟨rfl, by decide, restoreOPM_XWEL_layout xwelStore14 xwel14 2 3 rfl (by decide)⟩

/-- C3: on every successful cell-field extraction, the PRESSURE entries are the
unit converter applied with dimension pressure to the raw record values, the
TEMPERATURE entries are the converter applied with dimension temperature, and the
SWAT/SGAS entries are the raw record values with no conversion. -/
theorem restoreSOLUTION_conversion (file : Store) (numcells : Nat)
    (conversion_table : Dim → ℚ) (sol : Solution)
    (h : restoreSOLUTION file numcells conversion_table = Outcome.ok sol) :
    sol.pressure =
      (file.getNamedD "PRESSURE").map (to_si conversion_table Dim.pressure) ∧
    sol.temp =
      (file.getNamedD "TEMP").map (to_si conversion_table Dim.temperature) ∧
    sol.swat = file.getNamedD "SWAT" ∧
    sol.sgas = file.getNamedD "SGAS" := by
  unfold restoreSOLUTION at h
  rcases hmk : firstMissingKey file with _ | key
  · rw [hmk] at h
    rcases hsm : firstSizeMismatch file numcells with _ | name
    · rw [hsm] at h
      injection h with h
      subst h
      exact ⟨rfl, rfl, rfl, rfl⟩
    · rw [hsm] at h
      exact Outcome.noConfusion h
  · rw [hmk] at h
    exact Outcome.noConfusion h

/-- A store on which extraction succeeds with 2 cells: all four mandatory records
have 2 elements; RS is present with 3 elements (its size is never checked); RV is
absent. -/
def goodStore : Store :=
  ⟨[("PRESSURE", [10, 20]), ("TEMP", [30, 40]), ("SWAT", [3, 4]),
    ("SGAS", [5, 6]), ("RS", [7, 8, 9])]⟩

/-- A conversion table with factor 2 for both dimensions. -/
def tableTwo : Dim → ℚ := fun _ => 2

/-- The Solution extracted from `goodStore` with `tableTwo`. -/
def goodSol : Solution :=
  ⟨[20, 40], [60, 80], [3, 4], [5, 6], some [7, 8, 9], none⟩

/-- Concrete evaluation: extraction from `goodStore` with `tableTwo` succeeds and
yields `goodSol`. -/
theorem restoreSOLUTION_goodStore_eval :
    restoreSOLUTION goodStore 2 tableTwo = Outcome.ok goodSol := by
  simp [restoreSOLUTION, firstMissingKey, firstSizeMismatch, mandatoryKeys,
    Store.has, Store.getNamed, Store.getNamedD, goodStore, tableTwo, to_si, goodSol]
  norm_num

/-- C3 witness: concrete extraction from `goodStore`. -/
theorem restoreSOLUTION_conversion_witness :
    restoreSOLUTION goodStore 2 tableTwo = Outcome.ok goodSol ∧
    (goodSol.pressure =
       (goodStore.getNamedD "PRESSURE").map (to_si tableTwo Dim.pressure) ∧
     goodSol.temp =
       (goodStore.getNamedD "TEMP").map (to_si tableTwo Dim.temperature) ∧
     goodSol.swat = goodStore.getNamedD "SWAT" ∧
     goodSol.sgas = goodStore.getNamedD "SGAS") :=
  ⟨restoreSOLUTION_goodStore_eval,
   restoreSOLUTION_conversion goodStore 2 tableTwo goodSol
     restoreSOLUTION_goodStore_eval⟩

/-- C4: on every successful cell-field extraction with positive cell count, the
four mandatory fields are present in the Solution and each has exactly
`numcells` elements. -/
theorem restoreSOLUTION_mandatory_lengths (file : Store) (numcells : Nat)
    (conversion_table : Dim → ℚ) (sol : Solution)
    (_hpos : 0 < numcells)
    (h : restoreSOLUTION file numcells conversion_table = Outcome.ok sol) :
    sol.pressure.length = numcells ∧ sol.temp.length = numcells ∧
    sol.swat.length = numcells ∧ sol.sgas.length = numcells := by
  unfold restoreSOLUTION at h
  rcases hmk : firstMissingKey file with _ | key
  · rw [hmk] at h
    rcases hsm : firstSizeMismatch file numcells with _ | name
    · rw [hsm] at h
      have hall : ∀ k ∈ mandatoryKeys, (file.getNamedD k).length = numcells := by
        intro k hk
        have := List.find?_eq_none.mp hsm k hk
        simpa using this
      injection h with h
      subst h
      refine ⟨?_, ?_, ?_, ?_⟩
      · simpa using hall "PRESSURE" (by simp [mandatoryKeys])
      · simpa using hall "TEMP" (by simp [mandatoryKeys])
      · simpa using hall "SWAT" (by simp [mandatoryKeys])
      · simpa using hall "SGAS" (by simp [mandatoryKeys])
    · rw [hsm] at h
      exact Outcome.noConfusion h
  · rw [hmk] at h
    exact Outcome.noConfusion h

/-- C4 witness: `goodStore` with cell count 2. -/
theorem restoreSOLUTION_mandatory_lengths_witness :
    0 < 2 ∧
    (goodSol.pressure.length = 2 ∧ goodSol.temp.length = 2 ∧
     goodSol.swat.length = 2 ∧ goodSol.sgas.length = 2) :=
  ⟨by decide,
   restoreSOLUTION_mandatory_lengths goodStore 2 tableTwo goodSol (by decide)
     restoreSOLUTION_goodStore_eval⟩

/-- C5: if any mandatory record is absent, extraction fails with the
missing-keyword error naming an absent mandatory record (the first one in source
order) and produces no Solution: fail-fast, no fallback value. -/
theorem restoreSOLUTION_missing_mandatory (file : Store) (numcells : Nat)
    (conversion_table : Dim → ℚ) (key : String)
    (hk : key ∈ mandatoryKeys) (habs : file.has key = false) :
    ∃ k, k ∈ mandatoryKeys ∧ file.has k = false ∧
      restoreSOLUTION file numcells conversion_table =
        Outcome.err (RestartError.missingKeyword k) := by
  have hsome : (firstMissingKey file).isSome = true := by
    unfold firstMissingKey
    exact List.find?_isSome.mpr ⟨key, hk, by simp [habs]⟩
  rcases hfm : firstMissingKey file with _ | k
  · rw [hfm] at hsome
    simp at hsome
  · have hfm' : mandatoryKeys.find? (fun key => !(file.has key)) = some k := hfm
    refine ⟨k, List.mem_of_find?_eq_some hfm', ?_, ?_⟩
    · have := List.find?_some hfm'
      simpa using this
    · unfold restoreSOLUTION
      rw [hfm]

/-- A store lacking the mandatory SGAS record. -/
def storeNoSGAS : Store := ⟨[("PRESSURE", [1]), ("TEMP", [1]), ("SWAT", [1])]⟩

/-- C5 witness: a store lacking SGAS fails with the missing-keyword error. -/
theorem restoreSOLUTION_missing_mandatory_witness :
    "SGAS" ∈ mandatoryKeys ∧ storeNoSGAS.has "SGAS" = false ∧
    ∃ k, k ∈ mandatoryKeys ∧ storeNoSGAS.has k = false ∧
      restoreSOLUTION storeNoSGAS 1 tableTwo =
        Outcome.err (RestartError.missingKeyword k) :=
  ⟨by decide, by decide,
   restoreSOLUTION_missing_mandatory storeNoSGAS 1 tableTwo "SGAS"
     (by decide) (by decide)⟩

/-- The claim C6's own example input: a PRESSURE record with 99 elements while
the cell count is 100 (the other mandatory records have 100 elements). -/
def storeP99 : Store :=
  ⟨[("PRESSURE", List.replicate 99 0), ("TEMP", List.replicate 100 0),
    ("SWAT", List.replicate 100 0), ("SGAS", List.replicate 100 0)]⟩

/-- C6 counterexample: at the claim's example input (PRESSURE with 99 elements,
cell count 100) extraction throws the size-mismatch error naming PRESSURE, and
the entire payload of that thrown error — its message string — contains no digit
character at all, so the error carries neither the expected count 100 nor the
actual count 99, contrary to the claim. -/
theorem restoreSOLUTION_sizeMismatch_no_counts :
    restoreSOLUTION storeP99 100 tableTwo =
      Outcome.err (RestartError.sizeMismatch "PRESSURE") ∧
    (RestartError.sizeMismatch "PRESSURE").message.toList.all
      (fun c => !c.isDigit) = true := by
  constructor
  · decide
  · decide

/-- C6 amended: if all mandatory records are present and some mandatory record's
element count differs from the cell count, extraction fails with the
size-mismatch error naming an offending record; the error does not carry the
expected/actual element counts (its message interpolates only the record name
and contains no digits). -/
theorem restoreSOLUTION_size_mismatch (file : Store) (numcells : Nat)
    (conversion_table : Dim → ℚ) (key : String)
    (hk : key ∈ mandatoryKeys)
    (hall : ∀ k ∈ mandatoryKeys, file.has k = true)
    (hmis : (file.getNamedD key).length ≠ numcells) :
    ∃ k, k ∈ mandatoryKeys ∧ (file.getNamedD k).length ≠ numcells ∧
      restoreSOLUTION file numcells conversion_table =
        Outcome.err (RestartError.sizeMismatch k) ∧
      (RestartError.sizeMismatch k).message.toList.all
        (fun c => !c.isDigit) = true := by
  have hnone : firstMissingKey file = none := by
    unfold firstMissingKey
    rw [List.find?_eq_none]
    intro x hx
    simp [hall x hx]
  have hsome : (firstSizeMismatch file numcells).isSome = true := by
    unfold firstSizeMismatch
    exact List.find?_isSome.mpr ⟨key, hk, by simpa using hmis⟩
  rcases hfs : firstSizeMismatch file numcells with _ | k
  · rw [hfs] at hsome
    simp at hsome
  · have hfs' : mandatoryKeys.find?
        (fun key => (file.getNamedD key).length != numcells) = some k := hfs
    have hmem := List.mem_of_find?_eq_some hfs'
    refine ⟨k, hmem, ?_, ?_, ?_⟩
    · have := List.find?_some hfs'
      simpa using this
    · unfold restoreSOLUTION
      rw [hnone, hfs]
    · simp only [mandatoryKeys, List.mem_cons, List.not_mem_nil, or_false] at hmem
      rcases hmem with rfl | rfl | rfl | rfl <;> decide

/-- C6 amended witness: the 99-versus-100 example store. -/
theorem restoreSOLUTION_size_mismatch_witness :
    "PRESSURE" ∈ mandatoryKeys ∧
    (∀ k ∈ mandatoryKeys, storeP99.has k = true) ∧
    (storeP99.getNamedD "PRESSURE").length ≠ 100 ∧
    ∃ k, k ∈ mandatoryKeys ∧ (storeP99.getNamedD k).length ≠ 100 ∧
      restoreSOLUTION storeP99 100 tableTwo =
        Outcome.err (RestartError.sizeMismatch k) ∧
      (RestartError.sizeMismatch k).message.toList.all
        (fun c => !c.isDigit) = true :=
  ⟨by decide, by decide, by decide,
   restoreSOLUTION_size_mismatch storeP99 100 tableTwo "PRESSURE"
     (by decide) (by decide) (by decide)⟩

/-- Presence of a record coincides with `getNamed` returning a value. -/
theorem Store.has_iff_isSome (s : Store) (name : String) :
    s.has name = (s.getNamed name).isSome := by
  unfold Store.has Store.getNamed
  rcases h : s.records.find? (fun r => r.1 == name) with _ | v <;> rw [h]
  · show s.records.any (fun r => r.1 == name) = false
    rw [List.any_eq_false]
    intro x hx
    have := List.find?_eq_none.mp h x hx
    simpa using this
  · show s.records.any (fun r => r.1 == name) = true
    rw [List.any_eq_true]
    have hv := @List.find?_some _ (fun r => r.1 == name) v s.records h
    exact ⟨v, List.mem_of_find?_eq_some h, hv⟩

/-- C7: whenever the four mandatory records are present with element count equal
to the cell count, extraction succeeds no matter what the optional RS/RV records
hold — in particular no size check is applied to them — and the returned Solution
holds the RS field iff the RS record is present, with its raw unconverted values,
and likewise for RV. -/
theorem restoreSOLUTION_optional_raw (file : Store) (numcells : Nat)
    (conversion_table : Dim → ℚ)
    (hall : ∀ k ∈ mandatoryKeys, file.has k = true)
    (hsize : ∀ k ∈ mandatoryKeys, (file.getNamedD k).length = numcells) :
    ∃ sol, restoreSOLUTION file numcells conversion_table = Outcome.ok sol ∧
      sol.rs = file.getNamed "RS" ∧ sol.rv = file.getNamed "RV" ∧
      sol.rs.isSome = file.has "RS" ∧ sol.rv.isSome = file.has "RV" := by
  have hnone : firstMissingKey file = none := by
    unfold firstMissingKey
    rw [List.find?_eq_none]
    intro x hx
    simp [hall x hx]
  have hnone2 : firstSizeMismatch file numcells = none := by
    unfold firstSizeMismatch
    rw [List.find?_eq_none]
    intro x hx
    simp [hsize x hx]
  have hmain : restoreSOLUTION file numcells conversion_table =
      Outcome.ok
        ⟨(file.getNamedD "PRESSURE").map (to_si conversion_table Dim.pressure),
         (file.getNamedD "TEMP").map (to_si conversion_table Dim.temperature),
         file.getNamedD "SWAT", file.getNamedD "SGAS",
         file.getNamed "RS", file.getNamed "RV"⟩ := by
    unfold restoreSOLUTION
    rw [hnone, hnone2]
  exact ⟨_, hmain, rfl, rfl, (Store.has_iff_isSome file "RS").symm,
    (Store.has_iff_isSome file "RV").symm⟩

/-- C7 witness: `goodStore` has RS with 3 elements while the cell count is 2 —
accepted without error — and no RV record. -/
theorem restoreSOLUTION_optional_raw_witness :
    (∀ k ∈ mandatoryKeys, goodStore.has k = true) ∧
    (∀ k ∈ mandatoryKeys, (goodStore.getNamedD k).length = 2) ∧
    ∃ sol, restoreSOLUTION goodStore 2 tableTwo = Outcome.ok sol ∧
      sol.rs = goodStore.getNamed "RS" ∧ sol.rv = goodStore.getNamed "RV" ∧
      sol.rs.isSome = goodStore.has "RS" ∧ sol.rv.isSome = goodStore.has "RV" :=
  ⟨by decide, by decide,
   restoreSOLUTION_optional_raw goodStore 2 tableTwo (by decide) (by decide)⟩

/-- C8: with an opened store and (for unified files) a successfully selected
report-step block, ingest fails with exactly the error of the failing
sub-extraction, unmodified; a checkpoint is returned iff both extractions
succeed, and it is exactly the pair of their results — no partial checkpoint; a
well-field extraction hitting undefined behavior likewise yields no checkpoint. -/
theorem init_from_restart_file_propagation
    (filename : String) (f : Store) (unified selectOk : Bool)
    (restart_step : Int) (metric2si field2si : Dim → ℚ)
    (unit_type : UnitSystemType) (numcells num_wells num_phases : Nat)
    (hsel : (unified && !selectOk) = false) :
    (∀ e, restoreSOLUTION f numcells
          (selectConvTable metric2si field2si unit_type) = Outcome.err e →
        init_from_restart_file filename (some f) unified selectOk restart_step
          metric2si field2si unit_type numcells num_wells num_phases =
          Outcome.err e) ∧
    (∀ sol, restoreSOLUTION f numcells
          (selectConvTable metric2si field2si unit_type) = Outcome.ok sol →
        restoreOPM_XWEL f num_wells num_phases = Outcome.ub →
        init_from_restart_file filename (some f) unified selectOk restart_step
          metric2si field2si unit_type numcells num_wells num_phases =
          Outcome.ub) ∧
    (∀ cp, init_from_restart_file filename (some f) unified selectOk restart_step
          metric2si field2si unit_type numcells num_wells num_phases =
          Outcome.ok cp ↔
        ∃ sol wells, restoreSOLUTION f numcells
            (selectConvTable metric2si field2si unit_type) = Outcome.ok sol ∧
          restoreOPM_XWEL f num_wells num_phases = Outcome.ok wells ∧
          cp = (sol, wells)) := by
  unfold init_from_restart_file
  simp only [hsel, Bool.false_eq_true, if_false]
  refine ⟨?_, ?_, ?_⟩
  · intro e he
    rw [he]
  · intro sol hsol hub
    rw [hsol, hub]
  · intro cp
    constructor
    · intro h
      rcases hs : restoreSOLUTION f numcells
          (selectConvTable metric2si field2si unit_type) with sol | e | _ <;>
        rw [hs] at h
      · rcases hw : restoreOPM_XWEL f num_wells num_phases with wells | e | _ <;>
          rw [hw] at h
        · injection h with h
          exact ⟨sol, wells, rfl, rfl, h.symm⟩
        · exact Outcome.noConfusion h
        · exact Outcome.noConfusion h
      · exact Outcome.noConfusion h
      · exact Outcome.noConfusion h
    · rintro ⟨sol, wells, hsol, hw, rfl⟩
      rw [hsol, hw]

/-- C8 witness: concrete ingest inputs (non-unified store). -/
theorem init_from_restart_file_propagation_witness :
    (false && !true) = false ∧
    ((∀ e, restoreSOLUTION goodStore 2
          (selectConvTable tableTwo tableTwo UnitSystemType.metric) =
          Outcome.err e →
        init_from_restart_file "CASE" (some goodStore) false true 0
          tableTwo tableTwo UnitSystemType.metric 2 1 1 = Outcome.err e) ∧
     (∀ sol, restoreSOLUTION goodStore 2
          (selectConvTable tableTwo tableTwo UnitSystemType.metric) =
          Outcome.ok sol →
        restoreOPM_XWEL goodStore 1 1 = Outcome.ub →
        init_from_restart_file "CASE" (some goodStore) false true 0
          tableTwo tableTwo UnitSystemType.metric 2 1 1 = Outcome.ub) ∧
     (∀ cp, init_from_restart_file "CASE" (some goodStore) false true 0
          tableTwo tableTwo UnitSystemType.metric 2 1 1 = Outcome.ok cp ↔
        ∃ sol wells, restoreSOLUTION goodStore 2
            (selectConvTable tableTwo tableTwo UnitSystemType.metric) =
            Outcome.ok sol ∧
          restoreOPM_XWEL goodStore 1 1 = Outcome.ok wells ∧
          cp = (sol, wells))) :=
  ⟨rfl, init_from_restart_file_propagation "CASE" goodStore false true 0
    tableTwo tableTwo UnitSystemType.metric 2 1 1 rfl⟩

/-- C9: the conversion-table choice of ingest is a two-way branch on METRIC: for
every unit system other than METRIC — LAB included — the FIELD-to-SI table is
selected, and ingest behaves exactly as under the FIELD unit system. -/
theorem init_non_metric_field_table (filename : String) (file : Option Store)
    (unified selectOk : Bool) (restart_step : Int)
    (metric2si field2si : Dim → ℚ) (unit_type : UnitSystemType)
    (numcells num_wells num_phases : Nat)
    (h : unit_type ≠ UnitSystemType.metric) :
    selectConvTable metric2si field2si unit_type = field2si ∧
    init_from_restart_file filename file unified selectOk restart_step
        metric2si field2si unit_type numcells num_wells num_phases =
      init_from_restart_file filename file unified selectOk restart_step
        metric2si field2si UnitSystemType.field numcells num_wells num_phases := by
  have hsel : selectConvTable metric2si field2si unit_type = field2si := by
    unfold selectConvTable
    rw [if_neg h]
  have hself : selectConvTable metric2si field2si UnitSystemType.field =
      field2si := by
    unfold selectConvTable
    rw [if_neg (by decide)]
  refine ⟨hsel, ?_⟩
  unfold init_from_restart_file
  rw [hsel, hself]

/-- C9 witness: the LAB unit system is converted with the FIELD table. -/
theorem init_non_metric_field_table_witness :
    UnitSystemType.lab ≠ UnitSystemType.metric ∧
    (selectConvTable tableTwo tableTwo UnitSystemType.lab = tableTwo ∧
     init_from_restart_file "CASE" (some goodStore) false true 0
         tableTwo tableTwo UnitSystemType.lab 2 1 1 =
       init_from_restart_file "CASE" (some goodStore) false true 0
         tableTwo tableTwo UnitSystemType.field 2 1 1) :=
  ⟨by decide, init_non_metric_field_table "CASE" (some goodStore) false true 0
    tableTwo tableTwo UnitSystemType.lab 2 1 1 (by decide)⟩

end OpmOutput
